import Mathlib

/-!
Verification of the Cabonizer image-processing pipeline
(`src/services/imageProcessingService.ts`).

Shallow embedding conventions:
* JavaScript numbers are modeled as exact real numbers (`ℝ`); the
  quantization performed by `Float32Array`/`Uint8Array` storage is not
  modeled, but every explicit operation in the source (`Math.floor`,
  `Math.min`, `Math.max`, `Math.sqrt`, comparisons) is embedded exactly.
* Pixel buffers are total functions from the linear index `y*W+x`;
  the pipeline only ever reads indices below `W*H`.
* The chamfer distance transform only ever holds integral values plus the
  sentinel `1e6`, so it is embedded over `ℚ`, keeping it executable; the
  rest of the pipeline (which divides reals and takes square roots) lives
  in `ℝ`.
* The in-place sequential sweeps of `computeDistanceMap` are embedded as
  left folds over the list of linear indices in visit order, updating a
  function with `Function.update`.
-/

namespace Cabonizer

/-- A decoded RGBA raster: `data` is the flat byte buffer, `data (i*4+c)`
is channel `c` of pixel `i` (source: `imageData.data`). -/
structure Raster where
  width : ℕ
  height : ℕ
  data : ℕ → ℝ

/-- The parameter record from `src/types.ts` (`AlgorithmParams`). -/
structure AlgorithmParams where
  colorTolerance : ℝ
  fadeStrength : ℝ
  shavePx : ℝ
  featherWidth : ℝ
  objectThreshold : ℝ
  edgeDesat : ℝ
  edgeDark : ℝ
  globalDarkFactor : ℝ
  alphaBoost : ℝ
  autoDetectBg : Bool
  manualBgColor : ℝ × ℝ × ℝ

/-- The output raster written back through `ctx.createImageData` in stage 8,
with the four channels kept separate. -/
structure OutputRaster where
  width : ℕ
  height : ℕ
  dataR : ℕ → ℝ
  dataG : ℕ → ℝ
  dataB : ℕ → ℝ
  dataA : ℕ → ℝ

/-- Failure modes of `processImage`.  The source rejects its promise only
when the canvas context is unavailable or the image fails to decode
(`loadFailed` here); no `invalidInput` validation exists in the source,
the constructor is present so that the spec's claimed error can be stated. -/
inductive PipelineError where
  | invalidInput
  | loadFailed
deriving DecidableEq

/-- Sentinel used by `computeDistanceMap` (source: `const INF = 1e6`). -/
def INF : ℚ := 1e6

/-- One cell update of the forward sweep of `computeDistanceMap`
(source lines 29-38): relax `dist[idx]` against the up and left
neighbours, `+1` per step, edge neighbours contributing `INF`.
`idx / width` is the row `y`, `idx % width` the column `x`. -/
def fwdStep (width : ℕ) (d : ℕ → ℚ) (idx : ℕ) : ℕ → ℚ :=
  if 0 < d idx then
    Function.update d idx
      (min (d idx)
        (min ((if 0 < idx / width then d ((idx / width - 1) * width + idx % width) else INF) + 1)
             ((if 0 < idx % width then d ((idx / width) * width + (idx % width - 1)) else INF) + 1)))
  else d

/-- One cell update of the backward sweep of `computeDistanceMap`
(source lines 41-50): relax against the down and right neighbours. -/
def bwdStep (width height : ℕ) (d : ℕ → ℚ) (idx : ℕ) : ℕ → ℚ :=
  if 0 < d idx then
    Function.update d idx
      (min (d idx)
        (min ((if idx / width < height - 1 then d ((idx / width + 1) * width + idx % width) else INF) + 1)
             ((if idx % width < width - 1 then d ((idx / width) * width + (idx % width + 1)) else INF) + 1)))
  else d

/-- The two-pass chamfer distance transform, `computeDistanceMap` of the
source (lines 6-53).  Initialization (lines 12-26): with `invert = true`
a pixel with mask value 0 seeds distance 0 and every other pixel seeds
`INF`; with `invert = false` the source seeds mask value 1 with 0 and
every other value with `INF` (`val === 1 ? 0 : INF`).  Then the forward
sweep visits linear indices in increasing order (row-major, as the
source's nested `y`/`x` loops do) and the backward sweep visits them in
decreasing order. -/
def computeDistanceMap (mask : ℕ → ℕ) (width height : ℕ) (invert : Bool) : ℕ → ℚ :=
  let size := width * height
  let init : ℕ → ℚ := fun i =>
    if invert then (if mask i = 0 then 0 else INF)
    else (if mask i = 1 then 0 else INF)
  (List.range size).reverse.foldl (bwdStep width height)
    ((List.range size).foldl (fwdStep width) init)

noncomputable section

/-- Red component of the key color (source lines 82-104): mean of the four
corner pixels when `autoDetectBg`, else the caller-supplied color. -/
def keyR (r : Raster) (p : AlgorithmParams) : ℝ :=
  if p.autoDetectBg then
    (r.data ((0 * r.width + 0) * 4) +
     r.data ((0 * r.width + (r.width - 1)) * 4) +
     r.data (((r.height - 1) * r.width + 0) * 4) +
     r.data (((r.height - 1) * r.width + (r.width - 1)) * 4)) / 4
  else p.manualBgColor.1

/-- Green component of the key color. -/
def keyG (r : Raster) (p : AlgorithmParams) : ℝ :=
  if p.autoDetectBg then
    (r.data ((0 * r.width + 0) * 4 + 1) +
     r.data ((0 * r.width + (r.width - 1)) * 4 + 1) +
     r.data (((r.height - 1) * r.width + 0) * 4 + 1) +
     r.data (((r.height - 1) * r.width + (r.width - 1)) * 4 + 1)) / 4
  else p.manualBgColor.2.1

/-- Blue component of the key color. -/
def keyB (r : Raster) (p : AlgorithmParams) : ℝ :=
  if p.autoDetectBg then
    (r.data ((0 * r.width + 0) * 4 + 2) +
     r.data ((0 * r.width + (r.width - 1)) * 4 + 2) +
     r.data (((r.height - 1) * r.width + 0) * 4 + 2) +
     r.data (((r.height - 1) * r.width + (r.width - 1)) * 4 + 2)) / 4
  else p.manualBgColor.2.2

/-- Original decoded red channel of pixel `i` (source `origR[i] = data[i*4]`). -/
def origR (r : Raster) (i : ℕ) : ℝ := r.data (i * 4)

/-- Original decoded green channel of pixel `i`. -/
def origG (r : Raster) (i : ℕ) : ℝ := r.data (i * 4 + 1)

/-- Original decoded blue channel of pixel `i`. -/
def origB (r : Raster) (i : ℕ) : ℝ := r.data (i * 4 + 2)

/-- Euclidean RGB distance of pixel `i` to the key color (source line 131). -/
def dists (r : Raster) (p : AlgorithmParams) (i : ℕ) : ℝ :=
  Real.sqrt ((origR r i - keyR r p) ^ 2 + (origG r i - keyG r p) ^ 2 +
             (origB r i - keyB r p) ^ 2)

/-- Maximum chroma distance over the image, computed by the source's
running-maximum loop starting from `0` (lines 124-134). -/
def maxDist (r : Raster) (p : AlgorithmParams) : ℝ :=
  (List.range (r.width * r.height)).foldl
    (fun m i => if dists r p i > m then dists r p i else m) 0

/-- Normalization denominator `maxDist + 1e-6` (source line 136). -/
def distMaxDiv (r : Raster) (p : AlgorithmParams) : ℝ := maxDist r p + 1e-6

/-- Threshold below which a pixel is background (source line 137). -/
def opaqueDistNorm (p : AlgorithmParams) : ℝ := p.colorTolerance / 255

/-- Threshold above which a pixel is fully opaque (source line 138). -/
def clearDistNorm (p : AlgorithmParams) : ℝ :=
  p.colorTolerance * p.fadeStrength / 255

/-- Normalized chroma distance of pixel `i` (source line 141). -/
def distNorm (r : Raster) (p : AlgorithmParams) (i : ℕ) : ℝ :=
  dists r p i / distMaxDiv r p

/-- Raw alpha of pixel `i`, the three-zone shaper of source lines 140-152:
background cut, opaque cut, and the linear fade with `Math.floor`. -/
def alphaRaw (r : Raster) (p : AlgorithmParams) (i : ℕ) : ℝ :=
  if distNorm r p i ≤ opaqueDistNorm p then 0
  else if distNorm r p i > clearDistNorm p then 255
  else ((⌊255 * ((distNorm r p i - opaqueDistNorm p) /
                 (clearDistNorm p - opaqueDistNorm p))⌋ : ℤ) : ℝ)

/-- Object mask bit of pixel `i` (source line 159). -/
def objectMask (r : Raster) (p : AlgorithmParams) (i : ℕ) : ℕ :=
  if alphaRaw r p i ≥ p.objectThreshold then 1 else 0

/-- Shadow mask bit of pixel `i` (source line 160). -/
def shadowMask (r : Raster) (p : AlgorithmParams) (i : ℕ) : ℕ :=
  if 0 < alphaRaw r p i ∧ alphaRaw r p i < p.objectThreshold then 1 else 0

/-- Distance-to-background field inside the object mask
(source line 167: `computeDistanceMap(objectMask, w, h, true)`). -/
def distInside (r : Raster) (p : AlgorithmParams) : ℕ → ℚ :=
  computeDistanceMap (objectMask r p) r.width r.height true

/-- Shaved object mask (source lines 163-174): when `shavePx > 0` keep a
pixel iff its inside distance strictly exceeds `shavePx`, else copy the
object mask. -/
def shavedObj (r : Raster) (p : AlgorithmParams) (i : ℕ) : ℕ :=
  if 0 < p.shavePx then
    (if p.shavePx < ((distInside r p i : ℚ) : ℝ) then 1 else 0)
  else objectMask r p i

/-- Distance field used for feathering
(source line 181: `computeDistanceMap(shavedObj, w, h, true)`). -/
def distFeather (r : Raster) (p : AlgorithmParams) : ℕ → ℚ :=
  computeDistanceMap (shavedObj r p) r.width r.height true

/-- Feather ramp of pixel `i` (source lines 176-193): `dist/featherWidth`
clamped above to 1 then below to 0 when `featherWidth > 0`, else the hard
shaved mask. -/
def objectFeather (r : Raster) (p : AlgorithmParams) (i : ℕ) : ℝ :=
  if 0 < p.featherWidth then
    (if 1 < ((distFeather r p i : ℚ) : ℝ) / p.featherWidth then 1
     else if ((distFeather r p i : ℚ) : ℝ) / p.featherWidth < 0 then 0
     else ((distFeather r p i : ℚ) : ℝ) / p.featherWidth)
  else (if shavedObj r p i = 1 then 1 else 0)

/-- Alpha-boost multiplier (source line 197: `params.alphaBoost || 1.0`;
under the exact-real model the only falsy number is `0`). -/
def boost (p : AlgorithmParams) : ℝ :=
  if p.alphaBoost = 0 then 1 else p.alphaBoost

/-- The compositor's pre-boost alpha, the local `finalA` of source lines
199-214: feathered raw alpha inside the shaved object, raw alpha on the
shadow mask, zero on background. -/
def finalA0 (r : Raster) (p : AlgorithmParams) (i : ℕ) : ℝ :=
  if shavedObj r p i = 1 then alphaRaw r p i * objectFeather r p i
  else if shadowMask r p i = 1 then alphaRaw r p i
  else 0

/-- The compositor's final alpha of pixel `i` (source lines 216-222):
boost applied only to strictly positive values, saturated at 255. -/
def finalAlpha (r : Raster) (p : AlgorithmParams) (i : ℕ) : ℝ :=
  if 0 < finalA0 r p i then min 255 (finalA0 r p i * boost p)
  else finalA0 r p i

/-- Luma of the original decoded RGB (source lines 237 and 257). -/
def gray (r : Raster) (i : ℕ) : ℝ :=
  0.2989 * origR r i + 0.5870 * origG r i + 0.1140 * origB r i

/-- Stage-7 red channel (source lines 230-247): desaturated/darkened on
edge pixels (`0 < a < 255`), then clipped.  Computed by the source but
never read by the stage-8 output loop. -/
def finalR (r : Raster) (p : AlgorithmParams) (i : ℕ) : ℝ :=
  if 0 < finalAlpha r p i ∧ finalAlpha r p i < 255 then
    min 255 (max 0 ((origR r i * (1 - p.edgeDesat) + gray r i * p.edgeDesat) * p.edgeDark))
  else min 255 (max 0 (origR r i))

/-- Stage-7 green channel, likewise dead for the final output. -/
def finalG (r : Raster) (p : AlgorithmParams) (i : ℕ) : ℝ :=
  if 0 < finalAlpha r p i ∧ finalAlpha r p i < 255 then
    min 255 (max 0 ((origG r i * (1 - p.edgeDesat) + gray r i * p.edgeDesat) * p.edgeDark))
  else min 255 (max 0 (origG r i))

/-- Stage-7 blue channel, likewise dead for the final output. -/
def finalB (r : Raster) (p : AlgorithmParams) (i : ℕ) : ℝ :=
  if 0 < finalAlpha r p i ∧ finalAlpha r p i < 255 then
    min 255 (max 0 ((origB r i * (1 - p.edgeDesat) + gray r i * p.edgeDesat) * p.edgeDark))
  else min 255 (max 0 (origB r i))

/-- Globally darkened grayscale written to all three output channels
(source lines 257-258). -/
def darkGray (r : Raster) (p : AlgorithmParams) (i : ℕ) : ℝ :=
  min 255 (max 0 (gray r i * p.globalDarkFactor))

/-- Output red channel (source line 260). -/
def outR (r : Raster) (p : AlgorithmParams) (i : ℕ) : ℝ := darkGray r p i

/-- Output green channel (source line 261). -/
def outG (r : Raster) (p : AlgorithmParams) (i : ℕ) : ℝ := darkGray r p i

/-- Output blue channel (source line 262). -/
def outB (r : Raster) (p : AlgorithmParams) (i : ℕ) : ℝ := darkGray r p i

/-- Output alpha channel (source line 263: `outD[idx + 3] = alpha[i]`). -/
def outA (r : Raster) (p : AlgorithmParams) (i : ℕ) : ℝ := finalAlpha r p i

/-- The whole `processImage` call: a failed decode / missing canvas context
rejects (`loadFailed`); a decoded raster runs the pixel pipeline, which
has no failure path in the source, and yields the stage-8 output raster. -/
def processImageModel (decoded : Option Raster) (p : AlgorithmParams) :
    Except PipelineError OutputRaster :=
  match decoded with
  | none => Except.error PipelineError.loadFailed
  | some r => Except.ok ⟨r.width, r.height, outR r p, outG r p, outB r p, outA r p⟩

/-- The default parameter record of `src/constants.ts` (`DEFAULT_PARAMS`). -/
def DEFAULT_PARAMS : AlgorithmParams :=
  { colorTolerance := 15
    fadeStrength := 50
    shavePx := 0
    featherWidth := 0
    objectThreshold := 210
    edgeDesat := 1.0
    edgeDark := 0.0
    globalDarkFactor := 0.0
    alphaBoost := 2.5
    autoDetectBg := true
    manualBgColor := (0, 255, 0) }

/-- A degenerate 0x0 raster. -/
def emptyRaster : Raster := ⟨0, 0, fun _ => 0⟩

/-- A 1x1 raster whose only pixel is `(100,100,100)`. -/
def r10 : Raster := ⟨1, 1, fun _ => 100⟩

/-- Parameters keying exactly the color of `r10`. -/
def p10 : AlgorithmParams :=
  { DEFAULT_PARAMS with autoDetectBg := false, manualBgColor := (100, 100, 100) }

/-- A 1x1 raster whose only pixel is `(3,4,0)`, at Euclidean distance 5
from black. -/
def r5 : Raster := ⟨1, 1, fun j => if j = 0 then 3 else if j = 1 then 4 else 0⟩

/-- Parameters keying black with a zero-width fade zone. -/
def p5 : AlgorithmParams :=
  { DEFAULT_PARAMS with
    fadeStrength := 1
    autoDetectBg := false
    manualBgColor := (0, 0, 0) }

/-- A 2x1 raster with pixels `(0,0,0)` and `(255,0,0)`. -/
def r4 : Raster := ⟨2, 1, fun j => if j = 4 then 255 else 0⟩

/-- Parameters for the `C4` counterexample: `clearDistNorm = 1/2` and a key
red component sitting just inside the `1e-6` normalization slack. -/
def p4 : AlgorithmParams :=
  { DEFAULT_PARAMS with
    colorTolerance := 1.275
    fadeStrength := 100
    autoDetectBg := false
    manualBgColor := (85.0000001, 0, 0) }

/-- Default parameters with a positive feather width. -/
def p7 : AlgorithmParams := { DEFAULT_PARAMS with featherWidth := 2 }

/-- Default parameters with `alphaBoost = 0`, a falsy value in JavaScript. -/
def p9 : AlgorithmParams := { DEFAULT_PARAMS with alphaBoost := 0 }

/-- Default parameters with `fadeStrength = 1`, collapsing the fade zone. -/
def pC5 : AlgorithmParams := { DEFAULT_PARAMS with fadeStrength := 1 }

end

/-- A left fold preserves any invariant preserved by each step. -/
theorem foldl_preserves {α : Type} {P : α → Prop} (f : α → ℕ → α)
    (hf : ∀ a i, P a → P (f a i)) :
    ∀ (l : List ℕ) (a : α), P a → P (l.foldl f a) := by
  intro l
  induction l with
  | nil => intro a h; exact h
  | cons x xs ih => intro a h; exact ih (f a x) (hf a x h)

/-- The forward DT sweep never disturbs a zero-seeded cell: the update is
guarded by `dist[idx] > 0`. -/
theorem fwdStep_preserves_zero (mask : ℕ → ℕ) (w : ℕ) (d : ℕ → ℚ) (idx : ℕ)
    (h : ∀ j, mask j = 0 → d j = 0) : ∀ j, mask j = 0 → fwdStep w d idx j = 0 := by
  intro j hj
  unfold fwdStep
  by_cases hg : 0 < d idx
  · rw [if_pos hg]
    by_cases hji : j = idx
    · subst hji
      exact absurd hg (by rw [h j hj]; exact lt_irrefl 0)
    · rw [Function.update_noteq hji]
      exact h j hj
  · rw [if_neg hg]
    exact h j hj

/-- The backward DT sweep never disturbs a zero-seeded cell. -/
theorem bwdStep_preserves_zero (mask : ℕ → ℕ) (w hgt : ℕ) (d : ℕ → ℚ) (idx : ℕ)
    (h : ∀ j, mask j = 0 → d j = 0) : ∀ j, mask j = 0 → bwdStep w hgt d idx j = 0 := by
  intro j hj
  unfold bwdStep
  by_cases hg : 0 < d idx
  · rw [if_pos hg]
    by_cases hji : j = idx
    · subst hji
      exact absurd hg (by rw [h j hj]; exact lt_irrefl 0)
    · rw [Function.update_noteq hji]
      exact h j hj
  · rw [if_neg hg]
    exact h j hj

/-- With `invert = true` the masked-out pixels (mask value 0) are the
seeds of the distance transform, so their output distance is 0. -/
theorem dt_invert_zero (mask : ℕ → ℕ) (w hgt : ℕ) (i : ℕ) (hm : mask i = 0) :
    computeDistanceMap mask w hgt true i = 0 := by
  unfold computeDistanceMap
  have hinit : ∀ j, mask j = 0 → (fun k : ℕ =>
      if (true : Bool) then (if mask k = 0 then (0:ℚ) else INF)
      else (if mask k = 1 then 0 else INF)) j = 0 := by
    intro j hj
    simp [hj]
  have h1 := foldl_preserves (P := fun d : ℕ → ℚ => ∀ j, mask j = 0 → d j = 0)
    (fwdStep w) (fun d idx hd => fwdStep_preserves_zero mask w d idx hd)
    (List.range (w * hgt)) _ hinit
  have h2 := foldl_preserves (P := fun d : ℕ → ℚ => ∀ j, mask j = 0 → d j = 0)
    (bwdStep w hgt) (fun d idx hd => bwdStep_preserves_zero mask w hgt d idx hd)
    (List.range (w * hgt)).reverse _ h1
  exact h2 i hm

/-- The running maximum of chroma distances starts at 0 and never
decreases below it. -/
theorem maxDist_nonneg (r : Raster) (p : AlgorithmParams) : 0 ≤ maxDist r p := by
  unfold maxDist
  exact foldl_preserves (P := fun m : ℝ => 0 ≤ m)
    (fun m i => if dists r p i > m then dists r p i else m)
    (fun m i hm => by
      dsimp only
      by_cases hgt : dists r p i > m
      · rw [if_pos hgt]; exact le_of_lt (lt_of_le_of_lt hm hgt)
      · rw [if_neg hgt]; exact hm)
    (List.range (r.width * r.height)) 0 le_rfl
/-- C1: every output pixel has its three RGB channels equal to each other and
equal to `clamp(0,255, (0.2989*origR + 0.5870*origG + 0.1140*origB) * globalDarkFactor)`
computed from the original decoded RGB, and its alpha channel equal to the
compositor's `finalAlpha` (source lines 249-264). -/
theorem C1_output_grayscale_and_alpha (r : Raster) (p : AlgorithmParams) :
    ∀ i, i < r.width * r.height →
      outR r p i = outG r p i ∧ outG r p i = outB r p i ∧
      outR r p i = min 255 (max 0 ((0.2989 * origR r i + 0.5870 * origG r i +
        0.1140 * origB r i) * p.globalDarkFactor)) ∧
      outA r p i = finalAlpha r p i :=
  fun _ _ => ⟨rfl, rfl, rfl, rfl⟩

/-- C1 witness: the output-compositor property instantiated at a concrete
1x1 raster, pixel 0. -/
theorem C1_witness :
    0 < r10.width * r10.height ∧
    (outR r10 DEFAULT_PARAMS 0 = outG r10 DEFAULT_PARAMS 0 ∧
     outG r10 DEFAULT_PARAMS 0 = outB r10 DEFAULT_PARAMS 0 ∧
     outR r10 DEFAULT_PARAMS 0 = min 255 (max 0 ((0.2989 * origR r10 0 +
       0.5870 * origG r10 0 + 0.1140 * origB r10 0) * DEFAULT_PARAMS.globalDarkFactor)) ∧
     outA r10 DEFAULT_PARAMS 0 = finalAlpha r10 DEFAULT_PARAMS 0) :=
  ⟨by norm_num [r10], C1_output_grayscale_and_alpha r10 DEFAULT_PARAMS 0 (by norm_num [r10])⟩

/-- C2 counterexample: on the degenerate 0x0 raster the pipeline does NOT
fail with an `InvalidInput` error - the source contains no such validation,
so the run succeeds. -/
theorem C2_counterexample :
    processImageModel (some emptyRaster) DEFAULT_PARAMS ≠
      Except.error PipelineError.invalidInput := by
  unfold processImageModel
  intro h
  exact Except.noConfusion h

/-- C2 (amended): for a raster with `W*H == 0` the pipeline completes
successfully with an output raster (no `InvalidInput` error is raised), and
the per-pixel loops iterate over the empty index list, so no pixel is
processed. -/
theorem C2_no_invalid_input (r : Raster) (p : AlgorithmParams)
    (h : r.width * r.height = 0) :
    processImageModel (some r) p =
      Except.ok ⟨r.width, r.height, outR r p, outG r p, outB r p, outA r p⟩ ∧
    List.range (r.width * r.height) = [] :=
  ⟨rfl, by rw [h]; exact List.range_zero⟩

/-- C2 witness: the amended statement instantiated at the concrete 0x0
raster and the default parameters. -/
theorem C2_witness :
    emptyRaster.width * emptyRaster.height = 0 ∧
    (processImageModel (some emptyRaster) DEFAULT_PARAMS =
      Except.ok ⟨emptyRaster.width, emptyRaster.height, outR emptyRaster DEFAULT_PARAMS,
        outG emptyRaster DEFAULT_PARAMS, outB emptyRaster DEFAULT_PARAMS,
        outA emptyRaster DEFAULT_PARAMS⟩ ∧
     List.range (emptyRaster.width * emptyRaster.height) = []) :=
  ⟨rfl, C2_no_invalid_input emptyRaster DEFAULT_PARAMS rfl⟩

/-- C3: with `invert = false` the source seeds the mask-1 pixels with 0 and
the mask-0 pixels with `INF` (`val === 1 ? 0 : INF`, line 24), the opposite
of its own comment and of the claim.  On the 1x1 all-zero mask the output at
the mask-0 pixel is the sentinel `1e6`, not 0; on the 1x1 all-one mask the
mask-1 pixel gets 0. -/
theorem C3_invert_false_seeds_flipped :
    computeDistanceMap (fun _ => 0) 1 1 false 0 = 1000000 ∧
    computeDistanceMap (fun _ => 1) 1 1 false 0 = 0 ∧
    computeDistanceMap (fun _ => 0) 1 1 false 0 ≠ 0 := by
  have h0 : computeDistanceMap (fun _ => 0) 1 1 false 0 = 1000000 := by
    norm_num [computeDistanceMap, fwdStep, bwdStep, INF, List.range_succ,
      Function.update_same, min_def]
  have h1 : computeDistanceMap (fun _ => 1) 1 1 false 0 = 0 := by
    norm_num [computeDistanceMap, fwdStep, bwdStep, INF, List.range_succ,
      Function.update_same, min_def]
  exact ⟨h0, h1, by rw [h0]; norm_num⟩

/-- C5: whenever `clearDistNorm = opaqueDistNorm` the fade branch of the
alpha shaper is unreachable (its guard would need
`opaque < distNorm <= clear = opaque`), so no division by zero occurs and
every pixel is mapped to 255 when `distNorm > opaqueDistNorm` and to 0
otherwise. -/
theorem C5_zero_width_fade (r : Raster) (p : AlgorithmParams)
    (h : clearDistNorm p = opaqueDistNorm p) :
    ∀ i, alphaRaw r p i = if opaqueDistNorm p < distNorm r p i then 255 else 0 := by
  intro i
  unfold alphaRaw
  by_cases h1 : distNorm r p i ≤ opaqueDistNorm p
  · rw [if_pos h1, if_neg (not_lt.mpr h1)]
  · have h2 : opaqueDistNorm p < distNorm r p i := not_le.mp h1
    rw [if_neg h1, h, if_pos h2, if_pos h2]

/-- C5 witness: the zero-width fade zone realized by `fadeStrength = 1`. -/
theorem C5_witness :
    clearDistNorm pC5 = opaqueDistNorm pC5 ∧
    (∀ i, alphaRaw r10 pC5 i =
      if opaqueDistNorm pC5 < distNorm r10 pC5 i then 255 else 0) := by
  have h : clearDistNorm pC5 = opaqueDistNorm pC5 := by
    show (15:ℝ) * 1 / 255 = 15 / 255
    norm_num
  exact ⟨h, C5_zero_width_fade r10 pC5 h⟩

/-- C6: changing `edgeDesat` and `edgeDark` alone changes no output channel
of any pixel: the stage-7 per-pixel desaturated RGB (`finalR`/`finalG`/
`finalB`) is computed but never read by the stage-8 output loop, which
re-derives its RGB from `origR`/`origG`/`origB` and `globalDarkFactor`. -/
theorem C6_edge_params_no_effect (r : Raster) (p : AlgorithmParams) (e d : ℝ) (i : ℕ) :
    outR r { p with edgeDesat := e, edgeDark := d } i = outR r p i ∧
    outG r { p with edgeDesat := e, edgeDark := d } i = outG r p i ∧
    outB r { p with edgeDesat := e, edgeDark := d } i = outB r p i ∧
    outA r { p with edgeDesat := e, edgeDark := d } i = outA r p i :=
  ⟨rfl, rfl, rfl, rfl⟩

/-- C7: with `featherWidth = F > 0`, every pixel whose chamfer distance
inside the shaved object mask is at least `F` has feather exactly 1, and
every pixel at the shaved boundary (outside the shaved mask, where the
inward distance field is 0) has feather exactly 0. -/
theorem C7_feather_boundary (r : Raster) (p : AlgorithmParams)
    (hF : 0 < p.featherWidth) :
    ∀ i, (p.featherWidth ≤ ((distFeather r p i : ℚ) : ℝ) → objectFeather r p i = 1) ∧
         (shavedObj r p i = 0 → objectFeather r p i = 0) := by
  intro i
  constructor
  · intro hdist
    unfold objectFeather
    rw [if_pos hF]
    have hv : 1 ≤ ((distFeather r p i : ℚ) : ℝ) / p.featherWidth :=
      (one_le_div hF).mpr hdist
    by_cases h2 : 1 < ((distFeather r p i : ℚ) : ℝ) / p.featherWidth
    · rw [if_pos h2]
    · rw [if_neg h2,
        if_neg (by linarith : ¬ ((distFeather r p i : ℚ) : ℝ) / p.featherWidth < 0)]
      exact le_antisymm (not_lt.mp h2) hv
  · intro h0
    have hdz : distFeather r p i = 0 :=
      dt_invert_zero (shavedObj r p) r.width r.height i h0
    unfold objectFeather
    rw [if_pos hF, hdz]
    norm_num

/-- C7 witness: feather boundary property at `featherWidth = 2`. -/
theorem C7_witness :
    0 < p7.featherWidth ∧
    (∀ i, (p7.featherWidth ≤ ((distFeather r10 p7 i : ℚ) : ℝ) →
             objectFeather r10 p7 i = 1) ∧
          (shavedObj r10 p7 i = 0 → objectFeather r10 p7 i = 0)) := by
  have h : 0 < p7.featherWidth := by
    show (0:ℝ) < 2
    norm_num
  exact ⟨h, C7_feather_boundary r10 p7 h⟩

/-- C8: the shaved object mask is monotonically non-increasing in `shavePx`:
for `0 <= s1 <= s2` every pixel kept at `shavePx = s2` is kept at
`shavePx = s1` (with all other parameters and the raster fixed). -/
theorem C8_shave_monotone (r : Raster) (p : AlgorithmParams) (s1 s2 : ℝ)
    (_h0 : 0 ≤ s1) (h12 : s1 ≤ s2) :
    ∀ i, shavedObj r { p with shavePx := s2 } i = 1 →
         shavedObj r { p with shavePx := s1 } i = 1 := by
  intro i hi
  have e2 : shavedObj r { p with shavePx := s2 } i =
      (if 0 < s2 then (if s2 < ((distInside r p i : ℚ) : ℝ) then 1 else 0)
       else objectMask r p i) := rfl
  have e1 : shavedObj r { p with shavePx := s1 } i =
      (if 0 < s1 then (if s1 < ((distInside r p i : ℚ) : ℝ) then 1 else 0)
       else objectMask r p i) := rfl
  rw [e2] at hi
  rw [e1]
  by_cases hs2 : 0 < s2
  · rw [if_pos hs2] at hi
    have hdist : s2 < ((distInside r p i : ℚ) : ℝ) := by
      by_contra hnd
      rw [if_neg hnd] at hi
      exact absurd hi (by norm_num)
    by_cases hs1 : 0 < s1
    · rw [if_pos hs1, if_pos (lt_of_le_of_lt h12 hdist)]
    · rw [if_neg hs1]
      have hq : (0:ℚ) < distInside r p i := by
        have hr : (0:ℝ) < ((distInside r p i : ℚ) : ℝ) := lt_trans hs2 hdist
        exact_mod_cast hr
      have hnz : objectMask r p i ≠ 0 := by
        intro hz
        have hdz : distInside r p i = 0 :=
          dt_invert_zero (objectMask r p) r.width r.height i hz
        rw [hdz] at hq
        exact lt_irrefl 0 hq
      unfold objectMask at hnz ⊢
      by_cases hc : alphaRaw r p i ≥ p.objectThreshold
      · rw [if_pos hc]
      · rw [if_neg hc] at hnz
        exact absurd rfl hnz
  · have hs1 : ¬ 0 < s1 := fun hc => hs2 (lt_of_lt_of_le hc h12)
    rw [if_neg hs2] at hi
    rw [if_neg hs1]
    exact hi

/-- C8 witness: shave monotonicity at `s1 = 1`, `s2 = 2`. -/
theorem C8_witness :
    (0:ℝ) ≤ 1 ∧ (1:ℝ) ≤ 2 ∧
    (∀ i, shavedObj r10 { DEFAULT_PARAMS with shavePx := 2 } i = 1 →
          shavedObj r10 { DEFAULT_PARAMS with shavePx := 1 } i = 1) :=
  ⟨by norm_num, by norm_num,
   C8_shave_monotone r10 DEFAULT_PARAMS 1 2 (by norm_num) (by norm_num)⟩

/-- C9: `params.alphaBoost || 1.0` substitutes 1.0 when `alphaBoost` is the
falsy value 0, so the final alpha of every pixel equals the one produced
with `alphaBoost = 1`. -/
theorem C9_alpha_boost_falsy (r : Raster) (p : AlgorithmParams)
    (h : p.alphaBoost = 0) :
    ∀ i, outA r p i = outA r { p with alphaBoost := 1 } i := by
  intro i
  show finalAlpha r p i = finalAlpha r { p with alphaBoost := 1 } i
  unfold finalAlpha
  have hb : boost p = 1 := by
    unfold boost
    rw [if_pos h]
  have hb2 : boost { p with alphaBoost := 1 } = 1 := by
    show (if (1:ℝ) = 0 then (1:ℝ) else 1) = 1
    norm_num
  have e : finalA0 r { p with alphaBoost := 1 } i = finalA0 r p i := rfl
  rw [hb, hb2, e]

/-- C9 witness: `alphaBoost = 0` behaves like `alphaBoost = 1` on a concrete
raster. -/
theorem C9_witness :
    p9.alphaBoost = 0 ∧
    (∀ i, outA r10 p9 i = outA r10 { p9 with alphaBoost := 1 } i) :=
  ⟨rfl, C9_alpha_boost_falsy r10 p9 rfl⟩

/-- C10: a pixel whose raw alpha is 0 has final output alpha exactly 0: it
is excluded from the shadow mask, contributes `0 * feather` inside the
shaved object, and the alpha boost is only applied to strictly positive
values. -/
theorem C10_background_stays_transparent (r : Raster) (p : AlgorithmParams) (i : ℕ)
    (h : alphaRaw r p i = 0) :
    outA r p i = 0 := by
  have h0 : finalA0 r p i = 0 := by
    unfold finalA0
    rw [h]
    split_ifs <;> norm_num
  show finalAlpha r p i = 0
  unfold finalAlpha
  rw [h0]
  norm_num
/-- C10 witness: on a 1x1 raster keyed to its own color the raw alpha of
pixel 0 is 0, and so is its final output alpha. -/
theorem C10_witness : alphaRaw r10 p10 0 = 0 ∧ outA r10 p10 0 = 0 := by
  have hd : dists r10 p10 0 = 0 := by
    have e : dists r10 p10 0 =
        Real.sqrt (((100:ℝ) - 100)^2 + ((100:ℝ) - 100)^2 + ((100:ℝ) - 100)^2) := rfl
    rw [e]
    norm_num
  have hM : maxDist r10 p10 = 0 := by
    unfold maxDist
    rw [show List.range (r10.width * r10.height) = [0] from rfl]
    simp only [List.foldl]
    rw [hd]
    norm_num
  have hDN : distNorm r10 p10 0 = 0 := by
    unfold distNorm distMaxDiv
    rw [hd, hM]
    norm_num
  have hop : opaqueDistNorm p10 = 15 / 255 := rfl
  have halpha : alphaRaw r10 p10 0 = 0 := by
    unfold alphaRaw
    rw [hDN, if_pos (by rw [hop]; norm_num : (0:ℝ) ≤ opaqueDistNorm p10)]
  exact ⟨halpha, C10_background_stays_transparent r10 p10 0 halpha⟩

/-- C4 counterexample: on the 2x1 raster `r4` with parameters `p4`
(`clearDistNorm = 1/2`) every pixel's chroma distance strictly exceeds
`clearDistNorm * maxDist`, yet pixel 0 lands in the fade branch (because
the shaper divides by `maxDist + 1e-6`, not `maxDist`) and its raw alpha is
`floor` of a value strictly below 255, refuting the claim as stated. -/
theorem C4_counterexample :
    (∀ i, i < r4.width * r4.height →
       clearDistNorm p4 * maxDist r4 p4 < dists r4 p4 i) ∧
    ¬ (∀ i, i < r4.width * r4.height → alphaRaw r4 p4 i = 255) := by
  have hd0 : dists r4 p4 0 = 85.0000001 := by
    have e : dists r4 p4 0 =
        Real.sqrt (((0:ℝ) - 85.0000001)^2 + ((0:ℝ) - 0)^2 + ((0:ℝ) - 0)^2) := rfl
    rw [e, show ((0:ℝ) - 85.0000001)^2 + ((0:ℝ) - 0)^2 + ((0:ℝ) - 0)^2
          = (85.0000001:ℝ)^2 by norm_num,
        Real.sqrt_sq (by norm_num : (0:ℝ) ≤ 85.0000001)]
  have hd1 : dists r4 p4 1 = 169.9999999 := by
    have e : dists r4 p4 1 =
        Real.sqrt (((255:ℝ) - 85.0000001)^2 + ((0:ℝ) - 0)^2 + ((0:ℝ) - 0)^2) := rfl
    rw [e, show ((255:ℝ) - 85.0000001)^2 + ((0:ℝ) - 0)^2 + ((0:ℝ) - 0)^2
          = (169.9999999:ℝ)^2 by norm_num,
        Real.sqrt_sq (by norm_num : (0:ℝ) ≤ 169.9999999)]
  have hM4 : maxDist r4 p4 = 169.9999999 := by
    unfold maxDist
    rw [show List.range (r4.width * r4.height) = [0, 1] from rfl]
    simp only [List.foldl]
    rw [hd0, hd1]
    norm_num
  have hC4 : clearDistNorm p4 = 1 / 2 := by
    show (1.275:ℝ) * 100 / 255 = 1 / 2
    norm_num
  have hOp4 : opaqueDistNorm p4 = 1 / 200 := by
    show (1.275:ℝ) / 255 = 1 / 200
    norm_num
  have hDN4 : distNorm r4 p4 0 = 850000001 / 1700000009 := by
    unfold distNorm distMaxDiv
    rw [hd0, hM4]
    norm_num
  have halpha4 : alphaRaw r4 p4 0 ≠ 255 := by
    unfold alphaRaw
    rw [hDN4, hC4, hOp4, if_neg (by norm_num), if_neg (by norm_num)]
    have hlt : (255:ℝ) * ((850000001 / 1700000009 - 1 / 200) / (1 / 2 - 1 / 200)) < 255 := by
      norm_num
    have hfl : ⌊(255:ℝ) * ((850000001 / 1700000009 - 1 / 200) / (1 / 2 - 1 / 200))⌋ < (255:ℤ) :=
      Int.floor_lt.mpr (by exact_mod_cast hlt)
    intro hcontra
    have hz : ⌊(255:ℝ) * ((850000001 / 1700000009 - 1 / 200) / (1 / 2 - 1 / 200))⌋ = (255:ℤ) := by
      exact_mod_cast hcontra
    rw [hz] at hfl
    exact lt_irrefl 255 hfl
  constructor
  · intro i hi
    rw [show r4.width * r4.height = 2 from rfl] at hi
    interval_cases i
    · rw [hC4, hM4, hd0]
      norm_num
    · rw [hC4, hM4, hd1]
      norm_num
  · intro hall
    exact halpha4 (hall 0 (by norm_num [r4]))

/-- C4 (amended): if `opaqueDistNorm <= clearDistNorm` (the documented
parameter range `fadeStrength >= 1`) and every pixel's chroma distance
strictly exceeds `clearDistNorm * (maxDist + 1e-6)` - the actual
normalization denominator - then the raw alpha is 255 at every pixel. -/
theorem C4_alpha_saturates (r : Raster) (p : AlgorithmParams)
    (hfade : opaqueDistNorm p ≤ clearDistNorm p)
    (h : ∀ i, i < r.width * r.height →
      clearDistNorm p * (maxDist r p + 1e-6) < dists r p i) :
    ∀ i, i < r.width * r.height → alphaRaw r p i = 255 := by
  intro i hi
  have hD : (0:ℝ) < maxDist r p + 1e-6 := by
    have h1 := maxDist_nonneg r p
    have h2 : (0:ℝ) < 1e-6 := by norm_num
    linarith
  have hdn : clearDistNorm p < distNorm r p i := by
    show clearDistNorm p < dists r p i / distMaxDiv r p
    unfold distMaxDiv
    rw [lt_div_iff₀ hD]
    exact h i hi
  unfold alphaRaw
  rw [if_neg (not_le.mpr (lt_of_le_of_lt hfade hdn)), if_pos hdn]

/-- C4 witness: the amended saturation property at a concrete 1x1 raster
whose pixel is at distance 5 from the black key color. -/
theorem C4_witness :
    opaqueDistNorm p5 ≤ clearDistNorm p5 ∧
    (∀ i, i < r5.width * r5.height →
      clearDistNorm p5 * (maxDist r5 p5 + 1e-6) < dists r5 p5 i) ∧
    (∀ i, i < r5.width * r5.height → alphaRaw r5 p5 i = 255) := by
  have h1 : opaqueDistNorm p5 ≤ clearDistNorm p5 := by
    show (15:ℝ) / 255 ≤ 15 * 1 / 255
    norm_num
  have hd5 : dists r5 p5 0 = 5 := by
    have e : dists r5 p5 0 =
        Real.sqrt (((3:ℝ) - 0)^2 + ((4:ℝ) - 0)^2 + ((0:ℝ) - 0)^2) := rfl
    rw [e, show ((3:ℝ) - 0)^2 + ((4:ℝ) - 0)^2 + ((0:ℝ) - 0)^2 = (5:ℝ)^2 by norm_num,
        Real.sqrt_sq (by norm_num : (0:ℝ) ≤ 5)]
  have hM5 : maxDist r5 p5 = 5 := by
    unfold maxDist
    rw [show List.range (r5.width * r5.height) = [0] from rfl]
    simp only [List.foldl]
    rw [hd5]
    norm_num
  have h2 : ∀ i, i < r5.width * r5.height →
      clearDistNorm p5 * (maxDist r5 p5 + 1e-6) < dists r5 p5 i := by
    intro i hi
    rw [show r5.width * r5.height = 1 from rfl] at hi
    interval_cases i
    rw [hM5, hd5, show clearDistNorm p5 = 15 * 1 / 255 from rfl]
    norm_num
  exact ⟨h1, h2, C4_alpha_saturates r5 p5 h1 h2⟩

end Cabonizer
